import Mathlib

/-!
# Verification of the GitHub tracker plugin's polling/watermark engine

Shallow embedding of `src/main.py` (and of the repaired copy of
`request_github_api` in `src/fixed_request_github_api.py`) together with
proofs about the event-watermark logic, the rate-limit handling, the
persistence layer and the API client's error handling.

Conventions used throughout:

* JSON values as handled by Python's `json` module are modelled by the
  inductive type `Json` (floating-point numbers never occur in the data
  this plugin processes and are not modelled).
* Python machine state that a function mutates (`task_info["last_event_id"]`,
  `self.rate_limit`) is passed and returned explicitly.
* Python exceptions that the source code catches are modelled as `Option` /
  tagged results at the place where the corresponding `except` clause sits.
-/

namespace GithubTracker

/-- JSON values as produced by `json.load` / `resp.json()` in the plugin.
`bool` is kept separate from `int` (Python `json` parses `true` to `bool`,
which is itself an `int` subtype; `pyIntOfGet` below accounts for that). -/
inductive Json where
  | null : Json
  | bool (b : Bool) : Json
  | int (n : Int) : Json
  | str (s : String) : Json
  | arr (elems : List Json) : Json
  | obj (fields : List (String × Json)) : Json

/-- Python `dict.get(key)` on the field list of a JSON object: the value of
the first binding of `key`, or `None` (here `none`) when absent. -/
def dictGet : List (String × Json) → String → Option Json
  | [], _ => none
  | (k, v) :: rest, key => if k = key then some v else dictGet rest key

/-- Interpret a list of characters as a decimal numeral: `none` unless the
list is nonempty and consists of ASCII digits only. -/
def digitsToNat (cs : List Char) : Option Nat :=
  if cs.isEmpty then none
  else if cs.all Char.isDigit then
    some (cs.foldl (fun acc c => acc * 10 + (c.toNat - 48)) 0)
  else none

/-- Python `int(s)` on a string: an optional sign followed by one or more
decimal digits. (Python additionally strips surrounding whitespace and
accepts underscore digit grouping; those forms never occur in the event ids
and quota headers this plugin parses and are not modelled.) -/
def pyStrToInt (s : String) : Option Int :=
  match s.toList with
  | [] => none
  | '-' :: rest => (digitsToNat rest).map (fun n => -(n : Int))
  | '+' :: rest => (digitsToNat rest).map (fun n => (n : Int))
  | cs => (digitsToNat cs).map (fun n => (n : Int))

/-- Python `int(x)` applied to the result of `event_item.get("id")`:
succeeds on ints, booleans (`int(True) = 1`) and numeric strings; raises
`TypeError`/`ValueError` (modelled as `none`) on `None`, lists, objects and
non-numeric strings — exactly the cases the source's
`except (ValueError, TypeError): continue` skips. -/
def pyIntOfGet : Option Json → Option Int
  | some (Json.int n) => some n
  | some (Json.bool b) => some (if b then 1 else 0)
  | some (Json.str s) => pyStrToInt s
  | _ => none

/-- A raw event as delivered by the events API: a JSON object, given as its
field list. (The polling loops assume dict-shaped batch elements; a non-dict
element would raise inside the loop's outer `except` and abort the iteration,
which is outside the batches quantified over here.) -/
abbrev EventObj := List (String × Json)

/-- `event_item.get(key)`. -/
def EventObj.get (e : EventObj) (k : String) : Option Json := dictGet e k

/-- The type filter of `repo_polling` / `author_polling`
(src/main.py lines 318–320): the event is kept exactly when its `"type"`
field is the string `"IssuesEvent"` or `"PullRequestEvent"`
(`event_type not in ["IssuesEvent", "PullRequestEvent"]` skips everything
else, including a missing or non-string `"type"`). -/
def repoTypeOk (e : EventObj) : Bool :=
  match e.get "type" with
  | some (Json.str t) => t == "IssuesEvent" || t == "PullRequestEvent"
  | _ => false

/-- `person_polling` applies no type filter (src/main.py lines 420–424). -/
def personTypeOk (_e : EventObj) : Bool := true

/-- `int(event_item.get("id"))`, as an `Option`. -/
def pyEventId (e : EventObj) : Option Int := pyIntOfGet (e.get "id")

/-- The event-collection `for` loop shared by the three polling coroutines
(src/main.py lines 317–330, 370–383, 420–430), parametrised by the type
filter `keep`. Given the raw batch in API order and the current
`last_event_id`, it returns the collected `(event_id, event_item)` pairs in
batch order together with `last_event_id` as it stands after the loop:

* an event failing the filter or whose id does not parse is skipped;
* when `last_event_id` is `None` the first surviving event's id seeds it and
  the loop `break`s, collecting nothing;
* otherwise events with `event_id > last_event_id` are collected, and
  `last_event_id` itself is not touched by the loop. -/
def scanEvents (keep : EventObj → Bool) :
    List EventObj → Option Int → List (Int × EventObj) × Option Int
  | [], last => ([], last)
  | e :: rest, last =>
    if keep e then
      match pyEventId e with
      | none => scanEvents keep rest last
      | some eid =>
        match last with
        | none => ([], some eid)
        | some w =>
          if w < eid then
            let tail := scanEvents keep rest (some w)
            ((eid, e) :: tail.1, tail.2)
          else scanEvents keep rest (some w)
    else scanEvents keep rest last

/-- `new_events.sort(key=lambda x: x[0])`: a stable sort of the collected
pairs, ascending by event id (insertion sort is extensionally equal to the
stable sort Python performs). -/
def sortById (l : List (Int × EventObj)) : List (Int × EventObj) :=
  List.insertionSort (fun a b => a.1 ≤ b.1) l

/-- Running maximum, folding Python's binary `max` over a list of pairs. -/
def maxIdOf (acc : Int) : List (Int × EventObj) → Int
  | [] => acc
  | p :: rest => maxIdOf (max acc p.1) rest

/-- Python `max(eid for eid, _ in new_events)`: `none` on the empty list
(the source only evaluates it on a nonempty one). -/
def pyMaxIds : List (Int × EventObj) → Option Int
  | [] => none
  | p :: rest => some (maxIdOf p.1 rest)

/-- The complete event-processing step of one successful poll iteration
(src/main.py lines 316–342): scan the batch, and when anything was
collected, sort ascending by id, emit in that order and replace
`last_event_id` by the maximum collected id. Returns the emitted
`(id, event)` list in emission order and the watermark after the step. -/
def pollStep (keep : EventObj → Bool) (events : List EventObj)
    (last : Option Int) : List (Int × EventObj) × Option Int :=
  let scanned := scanEvents keep events last
  if scanned.1.isEmpty then ([], scanned.2)
  else
    let sorted := sortById scanned.1
    (sorted, pyMaxIds sorted)

/-- The id of the first event, in API-returned order, that passes the type
filter and has a parseable integer id (the value the spec says seeds the
watermark on a first poll). -/
def firstFilteredId (keep : EventObj → Bool) : List EventObj → Option Int
  | [] => none
  | e :: rest =>
    if keep e then
      match pyEventId e with
      | some n => some n
      | none => firstFilteredId keep rest
    else firstFilteredId keep rest

/-! ## Rate limiter and API client -/

/-- `self.rate_limit`, the process-wide shared quota state
(src/main.py lines 41–45). -/
structure RateLimit where
  limit : Int
  remaining : Int
  reset : Int
deriving Repr, DecidableEq

/-- `key in resp.headers` / `resp.headers[key]` / `resp.headers.get(key)`:
first binding of the header name, if any. -/
def headerGet : List (String × String) → String → Option String
  | [], _ => none
  | (k, v) :: rest, key => if k = key then some v else headerGet rest key

/-- Python `str(ValueError)` text for `int()` on a bad literal
(approximated; no theorem depends on its exact wording). -/
def intLiteralErr (v : String) : String :=
  "invalid literal for int() with base 10: " ++ v

/-- Steps 2 and 3 of `update_rate_limit_from_response`: the `remaining` and
`reset` headers, processed after `limit`. -/
def updateRemainingReset (rl : RateLimit) (hs : List (String × String)) :
    RateLimit × Option String :=
  match headerGet hs "X-RateLimit-Remaining" with
  | some v =>
    match pyStrToInt v with
    | none => (rl, some (intLiteralErr v))
    | some n =>
      let rl := { rl with remaining := n }
      match headerGet hs "X-RateLimit-Reset" with
      | some v2 =>
        match pyStrToInt v2 with
        | none => (rl, some (intLiteralErr v2))
        | some n2 => ({ rl with reset := n2 }, none)
      | none => (rl, none)
  | none =>
    match headerGet hs "X-RateLimit-Reset" with
    | some v2 =>
      match pyStrToInt v2 with
      | none => (rl, some (intLiteralErr v2))
      | some n2 => ({ rl with reset := n2 }, none)
    | none => (rl, none)

/-- `update_rate_limit_from_response` (src/main.py lines 654–664): overwrite
`limit`, `remaining` and `reset` in that order from the response's quota
headers when present. The state is mutated field by field, so a non-numeric
header leaves the earlier fields already overwritten; the second component
carries the `ValueError` that `int()` then raises into the caller's
`except Exception` clause. -/
def update_rate_limit_from_response (rl : RateLimit)
    (hs : List (String × String)) : RateLimit × Option String :=
  match headerGet hs "X-RateLimit-Limit" with
  | some v =>
    match pyStrToInt v with
    | none => (rl, some (intLiteralErr v))
    | some n => updateRemainingReset { rl with limit := n } hs
  | none => updateRemainingReset rl hs

/-- `max(0, reset_time - now) + 1`, the wait reported by the 403 branch of
`request_github_api` (src/main.py line 699). -/
def rateLimitWaitSeconds (resetTime now : Int) : Int :=
  max 0 (resetTime - now) + 1

/-- `int(resp.headers.get("X-RateLimit-Reset", 0))`: the default `0` when
the header is absent; `none` models the `ValueError` on a non-numeric
header. -/
def resetTimeOfHeaders (hs : List (String × String)) : Option Int :=
  match headerGet hs "X-RateLimit-Reset" with
  | none => some 0
  | some v => pyStrToInt v

def rateLimitedMsg (wait : Int) : String :=
  "达到GitHub API速率限制，将在 " ++ toString wait ++ " 秒后重置"

def notFoundMsg : String := "请求的资源不存在（404），可能是私有仓库或用户拼写错误"

def apiFailBodyMsg (status : Int) (m : String) : String :=
  "API请求失败，状态码: " ++ toString status ++ ", 错误: " ++ m

def apiFailMsg (status : Int) : String := "API请求失败，状态码: " ++ toString status

def networkErrMsg (e : String) : String := "API请求网络错误: " ++ e

def timeoutMsg : String := "API请求超时"

def unknownErrMsg (e : String) : String := "API请求未知错误: " ++ e

/-- A crude rendering of Python `str()` on a JSON value, used only where an
f-string interpolates a non-string JSON value; no theorem depends on it. -/
def jsonPyStr : Json → String
  | Json.null => "None"
  | Json.bool b => if b then "True" else "False"
  | Json.int n => toString n
  | Json.str s => s
  | Json.arr _ => "[...]"
  | Json.obj _ => "\x7b...\x7d"

/-- One HTTP response as the client observes it. `jsonBody` is `some` when
`await resp.json()` succeeds; when it is `none`, `jsonRaiseClientError`
records whether the exception raised is an `aiohttp.ClientError` (mime-type
errors) rather than a plain decoding `ValueError`, and `jsonErrStr` its
`str()`. -/
structure HttpResponse where
  status : Int
  headers : List (String × String)
  jsonBody : Option Json
  jsonRaiseClientError : Bool := false
  jsonErrStr : String := ""

/-- The outcome of `session.request(...)` itself: a response, or one of the
exception classes that the source's `except` clauses distinguish. -/
inductive HttpOutcome where
  | response (resp : HttpResponse)
  | clientError (msg : String)
  | timeout
  | otherError (msg : String)

/-- What one call of `request_github_api` produces: the `(success, value)`
pair it returns, the shared rate-limit state after the call, and how many
seconds the pre-request quota check slept (`0` when it did not block). -/
structure ApiCallResult where
  ok : Bool
  retval : Sum Json String
  rlAfter : RateLimit
  waitedBefore : Int

/-- The pre-request quota check of `request_github_api`
(src/main.py lines 682–687): when fewer than 5 requests remain and the
reset time has not passed, sleep until one second past the reset;
otherwise do not block. Returns the seconds slept. -/
def preWait (rl : RateLimit) (now : Int) : Int :=
  if rl.remaining < 5 ∧ now < rl.reset then rl.reset - now + 1 else 0

/-- The `message` text the non-200/403/404 branch extracts from the body:
`error_data.get('message', '未知错误')` interpolated by an f-string. -/
def bodyMessage (body : Json) : String :=
  match body with
  | Json.obj kvs =>
    match dictGet kvs "message" with
    | none => "未知错误"
    | some (Json.str s) => s
    | some j => jsonPyStr j
  | _ => "未知错误"

/-- `request_github_api` (src/fixed_request_github_api.py lines 1–61; the
copy in src/main.py lines 666–725 is the same token stream, see
`request_github_api_main`). Explicit-state reading of the method:
`rl` is `self.rate_limit` on entry, `now` the clock at the pre-request
quota check and `now403` the clock read again inside the 403 branch.

* Pre-request check: when `remaining < 5` and `now < reset`, sleep
  `reset - now + 1` seconds (recorded in `waitedBefore`).
* On a response, `update_rate_limit_from_response` runs first; a
  non-numeric quota header raises out of it into `except Exception`.
* Classification: 200 → `(True, body)`; 403 with remaining-header `"0"` →
  rate-limited message with `max(0, reset - now) + 1` seconds; 404 → fixed
  message; other statuses → best-effort message from the body, falling back
  to the status code alone when the body is not a JSON object.
* The three `except` clauses map transport errors, timeouts and anything
  else to `(False, message)`. -/
def request_github_api (rl : RateLimit) (now now403 : Int)
    (outcome : HttpOutcome) : ApiCallResult :=
  let waited : Int := preWait rl now
  match outcome with
  | HttpOutcome.clientError e =>
    ⟨false, Sum.inr (networkErrMsg e), rl, waited⟩
  | HttpOutcome.timeout =>
    ⟨false, Sum.inr timeoutMsg, rl, waited⟩
  | HttpOutcome.otherError e =>
    ⟨false, Sum.inr (unknownErrMsg e), rl, waited⟩
  | HttpOutcome.response resp =>
    match update_rate_limit_from_response rl resp.headers with
    | (rl2, some err) => ⟨false, Sum.inr (unknownErrMsg err), rl2, waited⟩
    | (rl2, none) =>
      if resp.status = 200 then
        match resp.jsonBody with
        | some body => ⟨true, Sum.inl body, rl2, waited⟩
        | none =>
          if resp.jsonRaiseClientError then
            ⟨false, Sum.inr (networkErrMsg resp.jsonErrStr), rl2, waited⟩
          else
            ⟨false, Sum.inr (unknownErrMsg resp.jsonErrStr), rl2, waited⟩
      else if resp.status = 403 ∧
          headerGet resp.headers "X-RateLimit-Remaining" = some "0" then
        match resetTimeOfHeaders resp.headers with
        | none =>
          ⟨false,
            Sum.inr (unknownErrMsg (intLiteralErr
              ((headerGet resp.headers "X-RateLimit-Reset").getD ""))),
            rl2, waited⟩
        | some rt =>
          ⟨false, Sum.inr (rateLimitedMsg (rateLimitWaitSeconds rt now403)),
            rl2, waited⟩
      else if resp.status = 404 then
        ⟨false, Sum.inr notFoundMsg, rl2, waited⟩
      else
        match resp.jsonBody with
        | some (Json.obj kvs) =>
          ⟨false,
            Sum.inr (apiFailBodyMsg resp.status (bodyMessage (Json.obj kvs))),
            rl2, waited⟩
        | _ => ⟨false, Sum.inr (apiFailMsg resp.status), rl2, waited⟩

/-- `request_github_api` as it appears in src/main.py lines 666–725. That
text is not a valid Python program: line 707 reads
`else:                    try:` — the line break between `else:` and `try:`
is missing, which is a `SyntaxError`, so importing `main.py` fails before
the method can ever run. Embedded here is the only parse the token stream
admits, obtained by restoring that line break; it is token-for-token the
body of src/fixed_request_github_api.py. -/
def request_github_api_main (rl : RateLimit) (now now403 : Int)
    (outcome : HttpOutcome) : ApiCallResult :=
  let waited : Int := preWait rl now
  match outcome with
  | HttpOutcome.clientError e =>
    ⟨false, Sum.inr (networkErrMsg e), rl, waited⟩
  | HttpOutcome.timeout =>
    ⟨false, Sum.inr timeoutMsg, rl, waited⟩
  | HttpOutcome.otherError e =>
    ⟨false, Sum.inr (unknownErrMsg e), rl, waited⟩
  | HttpOutcome.response resp =>
    match update_rate_limit_from_response rl resp.headers with
    | (rl2, some err) => ⟨false, Sum.inr (unknownErrMsg err), rl2, waited⟩
    | (rl2, none) =>
      if resp.status = 200 then
        match resp.jsonBody with
        | some body => ⟨true, Sum.inl body, rl2, waited⟩
        | none =>
          if resp.jsonRaiseClientError then
            ⟨false, Sum.inr (networkErrMsg resp.jsonErrStr), rl2, waited⟩
          else
            ⟨false, Sum.inr (unknownErrMsg resp.jsonErrStr), rl2, waited⟩
      else if resp.status = 403 ∧
          headerGet resp.headers "X-RateLimit-Remaining" = some "0" then
        match resetTimeOfHeaders resp.headers with
        | none =>
          ⟨false,
            Sum.inr (unknownErrMsg (intLiteralErr
              ((headerGet resp.headers "X-RateLimit-Reset").getD ""))),
            rl2, waited⟩
        | some rt =>
          ⟨false, Sum.inr (rateLimitedMsg (rateLimitWaitSeconds rt now403)),
            rl2, waited⟩
      else if resp.status = 404 then
        ⟨false, Sum.inr notFoundMsg, rl2, waited⟩
      else
        match resp.jsonBody with
        | some (Json.obj kvs) =>
          ⟨false,
            Sum.inr (apiFailBodyMsg resp.status (bodyMessage (Json.obj kvs))),
            rl2, waited⟩
        | _ => ⟨false, Sum.inr (apiFailMsg resp.status), rl2, waited⟩

/-! ## One iteration of each polling loop -/

/-- `for event_item in events` expects the 200 body to be a JSON array of
event objects; anything else raises inside the loop body and is caught by
the iteration's outer `except Exception` (modelled as `none`). -/
def asEventList (j : Json) : Option (List EventObj) :=
  match j with
  | Json.arr elems =>
    elems.foldr
      (fun el acc =>
        match el, acc with
        | Json.obj kvs, some rest => some (kvs :: rest)
        | _, _ => none)
      (some [])
  | _ => none

/-- The externally observable effects of one pass through a polling loop's
`while True` body. -/
structure IterationResult where
  /-- `self.rate_limit` after the iteration. -/
  rlAfter : RateLimit
  /-- Seconds slept by the pre-request quota check (`0`: it did not block). -/
  waitedBefore : Int
  /-- Event ids of the per-event notifications sent, in sending order. -/
  emittedIds : List Int
  /-- Whether an error/exception notification was sent (or suppressed by
  `hide_errors`) instead of event processing. -/
  errNotified : Bool
  /-- `task_info["last_event_id"]` after the iteration. -/
  lastAfter : Option Int
  /-- Whether `save_tracking_tasks` ran in this iteration. -/
  saved : Bool
deriving Repr, DecidableEq

/-- One iteration of `repo_polling`'s `while True` loop
(src/main.py lines 304–346), given the HTTP outcome of this cycle. The loop
calls `request_github_api` (so the shared rate-limit state is consulted
before and updated after the request), reports failures as error
notifications, and otherwise runs the scan/sort/emit/save step. A success
whose body is not an array of objects raises mid-loop into the outer
`except Exception`, producing an error notification with `last_event_id`
unchanged (the seeding `break` cannot be interrupted: it fires on the event
being processed). `author_polling` (lines 348–399) has the identical body
apart from the notification labels; see `author_polling_iteration`. -/
def repo_polling_iteration (rl : RateLimit) (now now403 : Int)
    (outcome : HttpOutcome) (last : Option Int) : IterationResult :=
  let r := request_github_api rl now now403 outcome
  match r.retval with
  | Sum.inr _ =>
    ⟨r.rlAfter, r.waitedBefore, [], true, last, false⟩
  | Sum.inl body =>
    match asEventList body with
    | none => ⟨r.rlAfter, r.waitedBefore, [], true, last, false⟩
    | some events =>
      let step := pollStep repoTypeOk events last
      ⟨r.rlAfter, r.waitedBefore, step.1.map Prod.fst, false, step.2,
        !step.1.isEmpty⟩

/-- One iteration of `author_polling`'s loop (src/main.py lines 356–399):
line for line the same as `repo_polling`'s apart from the URL and the
notification label strings. -/
def author_polling_iteration (rl : RateLimit) (now now403 : Int)
    (outcome : HttpOutcome) (last : Option Int) : IterationResult :=
  repo_polling_iteration rl now now403 outcome last

/-- One iteration of `person_polling`'s loop (src/main.py lines 410–448).
Unlike the other two loops it performs `session.get(url)` directly:
`self.rate_limit` is neither read (no pre-request blocking, whatever the
quota state) nor written (no update from the response's headers), which is
why the returned state is the input state and `waitedBefore` is `0` on
every path. A non-200 status or an exception yields a notification; a 200
body is processed with no type filter. -/
def person_polling_iteration (rl : RateLimit) (outcome : HttpOutcome)
    (last : Option Int) : IterationResult :=
  match outcome with
  | HttpOutcome.clientError _ => ⟨rl, 0, [], true, last, false⟩
  | HttpOutcome.timeout => ⟨rl, 0, [], true, last, false⟩
  | HttpOutcome.otherError _ => ⟨rl, 0, [], true, last, false⟩
  | HttpOutcome.response resp =>
    if resp.status ≠ 200 then ⟨rl, 0, [], true, last, false⟩
    else
      match resp.jsonBody with
      | none => ⟨rl, 0, [], true, last, false⟩
      | some body =>
        match asEventList body with
        | none => ⟨rl, 0, [], true, last, false⟩
        | some events =>
          let step := pollStep personTypeOk events last
          ⟨rl, 0, step.1.map Prod.fst, false, step.2, !step.1.isEmpty⟩

/-! ## Task persistence -/

/-- An entry of `self.tracking_tasks`: the in-memory task record. `data`
holds the mode-specific identifying strings (`owner`/`repo` or `username`);
`taskHandle` abstracts the `asyncio.Task` object stored under the `"task"`
key, which is not persisted. -/
structure TaskInfo where
  id : String
  mode : String
  data : List (String × String)
  last_event_id : Option Int
  taskHandle : Option Nat
deriving Repr, DecidableEq

/-- The four fields `save_tracking_tasks` persists per task. -/
structure PersistedTask where
  id : String
  mode : String
  data : List (String × String)
  last_event_id : Option Int
deriving Repr, DecidableEq

/-- Restriction of a task record to its persisted fields. -/
def TaskInfo.persisted (t : TaskInfo) : PersistedTask :=
  ⟨t.id, t.mode, t.data, t.last_event_id⟩

/-- `self.tracking_tasks`: destination (`unified_msg_origin`) → task id →
task record, as insertion-ordered dictionaries. -/
abbrev TrackingTasks := List (String × List (String × TaskInfo))

def dataToJson (d : List (String × String)) : Json :=
  Json.obj (d.map (fun kv => (kv.1, Json.str kv.2)))

def optIntToJson : Option Int → Json
  | none => Json.null
  | some n => Json.int n

/-- The per-task record `save_tracking_tasks` builds
(src/main.py lines 62–67). -/
def taskRecordToJson (t : TaskInfo) : Json :=
  Json.obj [("id", Json.str t.id), ("mode", Json.str t.mode),
    ("data", dataToJson t.data),
    ("last_event_id", optIntToJson t.last_event_id)]

/-- One destination's inner dictionary `{ taskId: record }` as
`save_tracking_tasks` builds it. -/
def sessionToJson (tasks : List (String × TaskInfo)) : Json :=
  Json.obj (tasks.map (fun p => (p.1, taskRecordToJson p.2)))

/-- The full document `save_tracking_tasks` serialises:
`{ destination: { taskId: {id, mode, data, last_event_id} } }`. -/
def save_doc (ts : TrackingTasks) : Json :=
  Json.obj (ts.map (fun s => (s.1, sessionToJson s.2)))

/-- The state of the persist file on disk. -/
inductive FileState where
  | absent
  | invalid
  | doc (j : Json)

/-- `save_tracking_tasks` (src/main.py lines 56–73): serialise the registry
restricted to the four persisted fields and write the JSON document to the
persist file (`json.dump` round-trips strings, ints and nulls exactly, so
the file is modelled as holding the document itself). -/
def save_tracking_tasks (ts : TrackingTasks) : FileState :=
  FileState.doc (save_doc ts)

/-- `load_tracking_tasks_from_file` (src/main.py lines 75–86): `{}` when the
file does not exist; `{}` (with a logged warning) when `json.load` raises;
otherwise the parsed document. -/
def load_tracking_tasks_from_file : FileState → Json
  | FileState.absent => Json.obj []
  | FileState.invalid => Json.obj []
  | FileState.doc j => j

/-- Reader for one persisted task record, with the field accesses
`load_persistent_tasks` performs (src/main.py lines 95–99). -/
def decodeData : Json → Option (List (String × String))
  | Json.obj kvs =>
    kvs.foldr
      (fun kv acc =>
        match kv.2, acc with
        | Json.str s, some rest => some ((kv.1, s) :: rest)
        | _, _ => none)
      (some [])
  | _ => none

def decodeOptInt : Json → Option (Option Int)
  | Json.null => some none
  | Json.int n => some (some n)
  | _ => none

def decodeTaskRecord : Json → Option PersistedTask
  | Json.obj [("id", Json.str i), ("mode", Json.str m), ("data", dj),
      ("last_event_id", lj)] =>
    match decodeData dj, decodeOptInt lj with
    | some d, some l => some ⟨i, m, d, l⟩
    | _, _ => none
  | _ => none

/-- Read a string-keyed JSON object back entry by entry. -/
def decodeEntries {α : Type} (f : Json → Option α) :
    List (String × Json) → Option (List (String × α))
  | [] => some []
  | (k, v) :: rest =>
    match f v, decodeEntries f rest with
    | some a, some tl => some ((k, a) :: tl)
    | _, _ => none

def decodeTasksOfSession : Json → Option (List (String × PersistedTask))
  | Json.obj kvs => decodeEntries decodeTaskRecord kvs
  | _ => none

/-- Read the whole persisted document back as
destination → task id → persisted record. -/
def decode_doc : Json → Option (List (String × List (String × PersistedTask)))
  | Json.obj kvs => decodeEntries decodeTasksOfSession kvs
  | _ => none

/-! ## The file-system operations of `save_tracking_tasks` -/

/-- Primitive file-system operations, at the granularity needed to state the
write-to-temp-then-rename discipline. -/
inductive FsOp where
  | openWrite (path : String)
  | writeDoc (doc : Json)
  | renameFile (src dst : String)

def persist_file : String := "tracking_tasks.json"

/-- The file-system operations `save_tracking_tasks` performs
(src/main.py lines 68–71): `open(self.persist_file, "w")` — a truncating
open of the destination itself — then `json.dump` of the document into it.
No other path is touched. -/
def save_tracking_tasks_ops (ts : TrackingTasks) : List FsOp :=
  [FsOp.openWrite persist_file, FsOp.writeDoc (save_doc ts)]

/-- The write-to-temp-then-rename discipline, as the spec words it: the
destination itself is never opened for writing; instead some distinct
temporary path is written and then renamed onto the destination. -/
def writesViaTempThenRename (ops : List FsOp) (dst : String) : Prop :=
  (∀ op ∈ ops, op ≠ FsOp.openWrite dst) ∧
  ∃ tmp, tmp ≠ dst ∧ FsOp.renameFile tmp dst ∈ ops

/-! ## Sample data used by witnesses and counterexamples -/

/-- A minimal `IssuesEvent` with the given raw id string. -/
def evIssue (idStr : String) : EventObj :=
  [("type", Json.str "IssuesEvent"), ("id", Json.str idStr)]

/-- A minimal `PullRequestEvent` with the given raw id string. -/
def evPR (idStr : String) : EventObj :=
  [("type", Json.str "PullRequestEvent"), ("id", Json.str idStr)]

/-- A `PushEvent`, which the repo/author type filter drops. -/
def evPush (idStr : String) : EventObj :=
  [("type", Json.str "PushEvent"), ("id", Json.str idStr)]

/-- An `IssuesEvent` whose id does not parse as an integer. -/
def evBadId : EventObj :=
  [("type", Json.str "IssuesEvent"), ("id", Json.str "not-a-number")]

/-- A 200 response carrying fresh quota headers and an empty event array. -/
def respQuota : HttpResponse :=
  { status := 200
    headers := [("X-RateLimit-Limit", "60"), ("X-RateLimit-Remaining", "59"),
      ("X-RateLimit-Reset", "2000")]
    jsonBody := some (Json.arr []) }

/-- A 403 response whose remaining-quota header is `"0"` and whose reset
header is 100. -/
def resp403 : HttpResponse :=
  { status := 403
    headers := [("X-RateLimit-Remaining", "0"), ("X-RateLimit-Reset", "100")]
    jsonBody := none }

/-- A one-destination, one-task registry. -/
def sampleTasks : TrackingTasks :=
  [("chan:42",
    [("ab12cd34",
      { id := "ab12cd34", mode := "repo"
        data := [("owner", "torvalds"), ("repo", "linux")]
        last_event_id := some 100, taskHandle := some 1 })])]

/-! ## Helper lemmas about the scan, the sort and the maximum -/

theorem scanEvents_none (keep : EventObj → Bool) :
    ∀ es : List EventObj, scanEvents keep es none = ([], firstFilteredId keep es)
  | [] => rfl
  | e :: rest => by
    by_cases hk : keep e
    · cases h : pyEventId e with
      | none =>
        simp only [scanEvents, firstFilteredId, hk, if_true, h]
        exact scanEvents_none keep rest
      | some eid => simp [scanEvents, firstFilteredId, hk, h]
    · simp only [scanEvents, firstFilteredId, hk, if_false]
      exact scanEvents_none keep rest

theorem scanEvents_some_snd (keep : EventObj → Bool) (w : Int) :
    ∀ es : List EventObj, (scanEvents keep es (some w)).2 = some w
  | [] => rfl
  | e :: rest => by
    by_cases hk : keep e
    · cases h : pyEventId e with
      | none =>
        simp only [scanEvents, hk, if_true, h]
        exact scanEvents_some_snd keep w rest
      | some eid =>
        by_cases hlt : w < eid
        · simp only [scanEvents, hk, if_true, h, hlt]
          exact scanEvents_some_snd keep w rest
        · simp only [scanEvents, hk, if_true, h, hlt, if_false]
          exact scanEvents_some_snd keep w rest
    · simp only [scanEvents, hk, if_false]
      exact scanEvents_some_snd keep w rest

theorem scanEvents_some_gt (keep : EventObj → Bool) (w : Int) :
    ∀ es : List EventObj, ∀ p ∈ (scanEvents keep es (some w)).1, w < p.1
  | [] => by intro p hp; simp [scanEvents] at hp
  | e :: rest => by
    intro p hp
    by_cases hk : keep e
    · cases h : pyEventId e with
      | none =>
        simp only [scanEvents, hk, if_true, h] at hp
        exact scanEvents_some_gt keep w rest p hp
      | some eid =>
        by_cases hlt : w < eid
        · simp only [scanEvents, hk, if_true, h, hlt] at hp
          cases hp with
          | head => exact hlt
          | tail _ hp => exact scanEvents_some_gt keep w rest p hp
        · simp only [scanEvents, hk, if_true, h, hlt, if_false] at hp
          exact scanEvents_some_gt keep w rest p hp
    · simp only [scanEvents, hk, if_false] at hp
      exact scanEvents_some_gt keep w rest p hp

theorem sortById_perm (l : List (Int × EventObj)) : (sortById l).Perm l :=
  List.perm_insertionSort _ l

theorem mem_of_mem_sortById {l : List (Int × EventObj)} {p : Int × EventObj}
    (h : p ∈ sortById l) : p ∈ l :=
  (sortById_perm l).mem_iff.mp h

theorem sortById_ne_nil {l : List (Int × EventObj)} (h : l ≠ []) :
    sortById l ≠ [] := by
  intro hnil
  have hperm := sortById_perm l
  rw [hnil] at hperm
  exact h hperm.symm.eq_nil

theorem sortById_sorted (l : List (Int × EventObj)) :
    (sortById l).Pairwise (fun a b => a.1 ≤ b.1) := by
  haveI : IsTotal (Int × EventObj) (fun a b => a.1 ≤ b.1) :=
    ⟨fun a b => Int.le_total a.1 b.1⟩
  haveI : IsTrans (Int × EventObj) (fun a b => a.1 ≤ b.1) :=
    ⟨fun _ _ _ hab hbc => le_trans hab hbc⟩
  exact List.sorted_insertionSort _ l

theorem le_maxIdOf (acc : Int) :
    ∀ l : List (Int × EventObj), acc ≤ maxIdOf acc l
  | [] => le_refl acc
  | p :: rest => le_trans (le_max_left acc p.1) (le_maxIdOf (max acc p.1) rest)

theorem pyMaxIds_gt {l : List (Int × EventObj)} {w : Int}
    (hall : ∀ p ∈ l, w < p.1) (hne : l ≠ []) :
    ∃ m, pyMaxIds l = some m ∧ w < m := by
  cases l with
  | nil => exact absurd rfl hne
  | cons p rest =>
    refine ⟨maxIdOf p.1 rest, rfl, ?_⟩
    exact lt_of_lt_of_le (hall p (List.mem_cons_self p rest)) (le_maxIdOf p.1 rest)

theorem pollStep_none (keep : EventObj → Bool) (es : List EventObj) :
    pollStep keep es none = ([], firstFilteredId keep es) := by
  simp [pollStep, scanEvents_none keep es]

theorem pollStep_some (keep : EventObj → Bool) (es : List EventObj) (w : Int) :
    (∀ p ∈ (pollStep keep es (some w)).1, w < p.1) ∧
    ∃ w2, (pollStep keep es (some w)).2 = some w2 ∧ w ≤ w2 ∧
      ((pollStep keep es (some w)).1 = [] → w2 = w) ∧
      ((pollStep keep es (some w)).1 ≠ [] →
        pyMaxIds (pollStep keep es (some w)).1 = some w2 ∧ w < w2) := by
  by_cases hemp : (scanEvents keep es (some w)).1.isEmpty
  · have h1 : pollStep keep es (some w) = ([], (scanEvents keep es (some w)).2) := by
      simp [pollStep, hemp]
    rw [h1, scanEvents_some_snd keep w es]
    refine ⟨by simp, w, rfl, le_refl w, fun _ => rfl, fun hne => absurd rfl hne⟩
  · have hne : (scanEvents keep es (some w)).1 ≠ [] := by
      intro hnil; rw [hnil] at hemp; exact hemp rfl
    have h1 : pollStep keep es (some w) =
        (sortById (scanEvents keep es (some w)).1,
          pyMaxIds (sortById (scanEvents keep es (some w)).1)) := by
      simp [pollStep, hemp]
    have hgt : ∀ p ∈ sortById (scanEvents keep es (some w)).1, w < p.1 :=
      fun p hp => scanEvents_some_gt keep w es p (mem_of_mem_sortById hp)
    have hsne : sortById (scanEvents keep es (some w)).1 ≠ [] := sortById_ne_nil hne
    obtain ⟨m, hm, hwm⟩ := pyMaxIds_gt hgt hsne
    rw [h1]
    exact ⟨hgt, m, hm, le_of_lt hwm, fun hnil => absurd hnil hsne,
      fun _ => ⟨hm, hwm⟩⟩

theorem firstFilteredId_none (keep : EventObj → Bool) :
    ∀ es : List EventObj, (∀ e ∈ es, keep e = false ∨ pyEventId e = none) →
      firstFilteredId keep es = none
  | [], _ => rfl
  | e :: rest, h => by
    have he := h e (List.mem_cons_self e rest)
    have hrest : ∀ x ∈ rest, keep x = false ∨ pyEventId x = none :=
      fun x hx => h x (List.mem_cons_of_mem e hx)
    by_cases hk : keep e
    · rcases he with hf | hid
      · rw [hk] at hf; cases hf
      · simp only [firstFilteredId, hk, if_true, hid]
        exact firstFilteredId_none keep rest hrest
    · simp only [firstFilteredId, hk, if_false]
      exact firstFilteredId_none keep rest hrest

/-! ## C1 — watermark invariant of a poll iteration -/

/-- C1: in any `repo_polling` iteration with current watermark `w`, every
emitted event id is strictly greater than `w`; the watermark after the
iteration never decreases — it stays `w` when nothing was collected, and is
otherwise replaced by the maximum id of the collected events, which is
strictly greater than `w`. -/
theorem repo_watermark_monotone (es : List EventObj) (w : Int) :
    (∀ p ∈ (pollStep repoTypeOk es (some w)).1, w < p.1) ∧
    ∃ w2, (pollStep repoTypeOk es (some w)).2 = some w2 ∧ w ≤ w2 ∧
      ((pollStep repoTypeOk es (some w)).1 = [] → w2 = w) ∧
      ((pollStep repoTypeOk es (some w)).1 ≠ [] →
        pyMaxIds (pollStep repoTypeOk es (some w)).1 = some w2 ∧ w < w2) :=
  pollStep_some repoTypeOk es w

/-- C1 witness: a concrete batch (ids 105, 101, 99, 103 in API order, all
matching types, watermark 100) evaluated through the theorem. -/
theorem repo_watermark_monotone_witness :
    (∀ p ∈ (pollStep repoTypeOk
        [evIssue "105", evPR "101", evIssue "99", evPR "103"] (some 100)).1,
      (100 : Int) < p.1) ∧
    ∃ w2, (pollStep repoTypeOk
        [evIssue "105", evPR "101", evIssue "99", evPR "103"] (some 100)).2 =
          some w2 ∧ (100 : Int) ≤ w2 ∧
      ((pollStep repoTypeOk
          [evIssue "105", evPR "101", evIssue "99", evPR "103"] (some 100)).1 =
            [] → w2 = 100) ∧
      ((pollStep repoTypeOk
          [evIssue "105", evPR "101", evIssue "99", evPR "103"] (some 100)).1 ≠
            [] →
        pyMaxIds (pollStep repoTypeOk
          [evIssue "105", evPR "101", evIssue "99", evPR "103"] (some 100)).1 =
            some w2 ∧ (100 : Int) < w2) :=
  repo_watermark_monotone [evIssue "105", evPR "101", evIssue "99", evPR "103"] 100

/-! ## C2 — seeding on a null watermark -/

/-- C2: when `last_event_id` is `None`, a poll iteration emits nothing and
the watermark becomes the id of the first event in API-returned order that
passes the type filter and has a parseable integer id. -/
theorem repo_seeding (es : List EventObj) :
    pollStep repoTypeOk es none = ([], firstFilteredId repoTypeOk es) :=
  pollStep_none repoTypeOk es

/-- C2 witness: a batch whose first event fails the filter and whose second
is a matching event with id 42 — the iteration emits nothing and seeds the
watermark to 42. -/
theorem repo_seeding_witness :
    pollStep repoTypeOk [evPush "99", evIssue "42", evIssue "7"] none =
      ([], firstFilteredId repoTypeOk [evPush "99", evIssue "42", evIssue "7"]) ∧
    firstFilteredId repoTypeOk [evPush "99", evIssue "42", evIssue "7"] =
      some 42 :=
  ⟨repo_seeding [evPush "99", evIssue "42", evIssue "7"], rfl⟩

/-! ## C3 — emission order within one cycle -/

/-- C3 counterexample: the claim says emitted ids are *strictly* ascending
for every raw batch, but a batch containing two events with the same id
(both above the watermark) is emitted as `[5, 5]`, which is not strictly
ascending — `list.sort` does not deduplicate. -/
theorem repo_emission_not_strict_counterexample :
    ¬ List.Pairwise (fun a b => a < b)
      (((pollStep repoTypeOk [evIssue "5", evPR "5"] (some 1)).1).map
        Prod.fst) := by
  intro hpair
  have h : (((pollStep repoTypeOk [evIssue "5", evPR "5"] (some 1)).1).map
      Prod.fst) = [5, 5] := rfl
  rw [h] at hpair
  cases hpair with
  | cons hrel _ => exact absurd (hrel 5 (List.mem_cons_self 5 [])) (lt_irrefl 5)

/-- C3 amended: within one poll cycle the emitted list is exactly the
collected events sorted ascending by id, so the emitted ids are
non-decreasing; they are strictly ascending whenever the collected ids are
pairwise distinct. -/
theorem repo_emission_sorted (es : List EventObj) (w : Int) :
    (pollStep repoTypeOk es (some w)).1 =
      sortById (scanEvents repoTypeOk es (some w)).1 ∧
    List.Pairwise (fun a b => a ≤ b)
      (((pollStep repoTypeOk es (some w)).1).map Prod.fst) ∧
    ((((pollStep repoTypeOk es (some w)).1).map Prod.fst).Nodup →
      List.Pairwise (fun a b => a < b)
        (((pollStep repoTypeOk es (some w)).1).map Prod.fst)) := by
  have hemit : (pollStep repoTypeOk es (some w)).1 =
      sortById (scanEvents repoTypeOk es (some w)).1 := by
    cases hl : (scanEvents repoTypeOk es (some w)).1 with
    | nil => simp [pollStep, hl, sortById, List.insertionSort]
    | cons p rest => simp [pollStep, hl]
  have hsorted : List.Pairwise (fun a b => a ≤ b)
      (((pollStep repoTypeOk es (some w)).1).map Prod.fst) := by
    rw [hemit]
    exact List.Pairwise.map Prod.fst (fun a b hab => hab)
      (sortById_sorted (scanEvents repoTypeOk es (some w)).1)
  refine ⟨hemit, hsorted, fun hnodup => ?_⟩
  exact (hsorted.and hnodup).imp
    (fun hab => lt_of_le_of_ne hab.1 hab.2)

/-- C3 amended witness: the Scenario-A batch (ids 105, 101, 99, 103, all
matching, watermark 100) is emitted as `[101, 103, 105]`: sorted, and since
the ids are distinct, strictly ascending. -/
theorem repo_emission_sorted_witness :
    ((pollStep repoTypeOk
        [evIssue "105", evPR "101", evIssue "99", evPR "103"] (some 100)).1 =
      sortById (scanEvents repoTypeOk
        [evIssue "105", evPR "101", evIssue "99", evPR "103"] (some 100)).1 ∧
    List.Pairwise (fun a b => a ≤ b)
      (((pollStep repoTypeOk
        [evIssue "105", evPR "101", evIssue "99", evPR "103"] (some 100)).1).map
          Prod.fst) ∧
    ((((pollStep repoTypeOk
        [evIssue "105", evPR "101", evIssue "99", evPR "103"] (some 100)).1).map
          Prod.fst).Nodup →
      List.Pairwise (fun a b => a < b)
        (((pollStep repoTypeOk
          [evIssue "105", evPR "101", evIssue "99", evPR "103"] (some 100)).1).map
            Prod.fst))) ∧
    ((pollStep repoTypeOk
        [evIssue "105", evPR "101", evIssue "99", evPR "103"] (some 100)).1).map
          Prod.fst = [101, 103, 105] :=
  ⟨repo_emission_sorted [evIssue "105", evPR "101", evIssue "99", evPR "103"] 100,
    rfl⟩

/-! ## C10 — failed seeding leaves the watermark null -/

/-- C10: while the watermark is null, a batch in which every event either
fails the type filter or has an unparseable id emits nothing and leaves the
watermark null, so seeding is re-attempted on the next poll. -/
theorem seeding_retries_on_unusable_batch (es : List EventObj)
    (h : ∀ e ∈ es, repoTypeOk e = false ∨ pyEventId e = none) :
    pollStep repoTypeOk es none = ([], none) := by
  rw [pollStep_none, firstFilteredId_none repoTypeOk es h]

/-- C10 witness: a `PushEvent` (filtered out) followed by an `IssuesEvent`
with a non-numeric id (dropped by the parse) leaves the watermark null. -/
theorem seeding_retries_on_unusable_batch_witness :
    (∀ e ∈ [evPush "7", evBadId], repoTypeOk e = false ∨ pyEventId e = none) ∧
    pollStep repoTypeOk [evPush "7", evBadId] none = ([], none) :=
  ⟨by decide, seeding_retries_on_unusable_batch [evPush "7", evBadId] (by decide)⟩

/-! ## Helper lemmas about the API client -/

theorem request_waitedBefore (rl : RateLimit) (now now403 : Int)
    (outcome : HttpOutcome) :
    (request_github_api rl now now403 outcome).waitedBefore = preWait rl now := by
  cases outcome with
  | clientError e => rfl
  | timeout => rfl
  | otherError e => rfl
  | response resp =>
    simp only [request_github_api]
    (repeat' split) <;> rfl

theorem request_rlAfter_response (rl : RateLimit) (now now403 : Int)
    (resp : HttpResponse) :
    (request_github_api rl now now403 (HttpOutcome.response resp)).rlAfter =
      (update_rate_limit_from_response rl resp.headers).1 := by
  simp only [request_github_api]
  (repeat' split) <;> simp_all

theorem request_rlAfter_no_response (rl : RateLimit) (now now403 : Int)
    (outcome : HttpOutcome) (h : ∀ resp, outcome ≠ HttpOutcome.response resp) :
    (request_github_api rl now now403 outcome).rlAfter = rl := by
  cases outcome with
  | clientError e => rfl
  | timeout => rfl
  | otherError e => rfl
  | response resp => exact absurd rfl (h resp)

theorem repo_iteration_rlAfter (rl : RateLimit) (now now403 : Int)
    (outcome : HttpOutcome) (last : Option Int) :
    (repo_polling_iteration rl now now403 outcome last).rlAfter =
      (request_github_api rl now now403 outcome).rlAfter := by
  simp only [repo_polling_iteration]
  (repeat' split) <;> rfl

theorem repo_iteration_waited (rl : RateLimit) (now now403 : Int)
    (outcome : HttpOutcome) (last : Option Int) :
    (repo_polling_iteration rl now now403 outcome last).waitedBefore =
      (request_github_api rl now now403 outcome).waitedBefore := by
  simp only [repo_polling_iteration]
  (repeat' split) <;> rfl

theorem person_iteration_state (rl : RateLimit) (outcome : HttpOutcome)
    (last : Option Int) :
    (person_polling_iteration rl outcome last).rlAfter = rl ∧
    (person_polling_iteration rl outcome last).waitedBefore = 0 := by
  cases outcome with
  | clientError e => exact ⟨rfl, rfl⟩
  | timeout => exact ⟨rfl, rfl⟩
  | otherError e => exact ⟨rfl, rfl⟩
  | response resp =>
    simp only [person_polling_iteration]
    (repeat' split) <;> exact ⟨rfl, rfl⟩

/-! ## C4 — which loops share the rate-limit state -/

/-- C4 counterexample: the claim says all three polling loops read the
shared rate-limit state before each request and update it after each
response. Concretely falsified by `person_polling`: with the shared state
exhausted (`remaining = 0`, reset at 1000, i.e. ahead of a clock reading of
500) its iteration performs no pre-request blocking, and a response
carrying fresh quota headers leaves the shared state untouched even though
`update_rate_limit_from_response` would have produced a different state. -/
theorem person_bypasses_limiter_counterexample :
    (person_polling_iteration ⟨60, 0, 1000⟩
        (HttpOutcome.response respQuota) none).rlAfter = ⟨60, 0, 1000⟩ ∧
    (person_polling_iteration ⟨60, 0, 1000⟩
        (HttpOutcome.response respQuota) none).waitedBefore = 0 ∧
    (update_rate_limit_from_response ⟨60, 0, 1000⟩ respQuota.headers).1 =
      ⟨60, 59, 2000⟩ ∧
    (⟨60, 0, 1000⟩ : RateLimit).remaining < 5 ∧
    (500 : Int) < (⟨60, 0, 1000⟩ : RateLimit).reset :=
  ⟨rfl, rfl, rfl, by decide, by decide⟩

/-- C4 amended: the repo and author polling loops route every request
through `request_github_api`, which reads the shared rate-limit state
before sending — blocking `reset - now + 1` seconds exactly when
`remaining < 5` and `now < reset` — and overwrites the state from the
response's quota headers after every response; `person_polling` issues its
request directly, so the shared state is neither read (its iteration never
blocks, whatever the state) nor updated. -/
theorem rate_limit_shared_discipline (rl : RateLimit) (now now403 : Int)
    (outcome : HttpOutcome) (last : Option Int) :
    (rl.remaining < 5 ∧ now < rl.reset →
      (repo_polling_iteration rl now now403 outcome last).waitedBefore =
        rl.reset - now + 1) ∧
    (¬(rl.remaining < 5 ∧ now < rl.reset) →
      (repo_polling_iteration rl now now403 outcome last).waitedBefore = 0) ∧
    (∀ resp, outcome = HttpOutcome.response resp →
      (repo_polling_iteration rl now now403 outcome last).rlAfter =
        (update_rate_limit_from_response rl resp.headers).1) ∧
    author_polling_iteration rl now now403 outcome last =
      repo_polling_iteration rl now now403 outcome last ∧
    (person_polling_iteration rl outcome last).rlAfter = rl ∧
    (person_polling_iteration rl outcome last).waitedBefore = 0 := by
  have hw := repo_iteration_waited rl now now403 outcome last
  rw [request_waitedBefore] at hw
  refine ⟨?_, ?_, ?_, rfl, (person_iteration_state rl outcome last).1,
    (person_iteration_state rl outcome last).2⟩
  · intro hc
    rw [hw]
    simp [preWait, hc]
  · intro hc
    rw [hw]
    simp [preWait, hc]
  · intro resp hresp
    rw [repo_iteration_rlAfter, hresp, request_rlAfter_response]

/-- C4 amended witness: concrete exhausted state (`remaining = 3 < 5`,
reset 1000, clock 500) and the sample quota-bearing response: the repo
iteration blocks 501 seconds and its state afterwards is the
header-updated one. -/
theorem rate_limit_shared_discipline_witness :
    (((⟨60, 3, 1000⟩ : RateLimit).remaining < 5 ∧ (500 : Int) <
        (⟨60, 3, 1000⟩ : RateLimit).reset →
      (repo_polling_iteration ⟨60, 3, 1000⟩ 500 500
          (HttpOutcome.response respQuota) (some 7)).waitedBefore =
        (⟨60, 3, 1000⟩ : RateLimit).reset - 500 + 1) ∧
    (¬((⟨60, 3, 1000⟩ : RateLimit).remaining < 5 ∧ (500 : Int) <
        (⟨60, 3, 1000⟩ : RateLimit).reset) →
      (repo_polling_iteration ⟨60, 3, 1000⟩ 500 500
          (HttpOutcome.response respQuota) (some 7)).waitedBefore = 0) ∧
    (∀ resp, HttpOutcome.response respQuota = HttpOutcome.response resp →
      (repo_polling_iteration ⟨60, 3, 1000⟩ 500 500
          (HttpOutcome.response respQuota) (some 7)).rlAfter =
        (update_rate_limit_from_response ⟨60, 3, 1000⟩ resp.headers).1) ∧
    author_polling_iteration ⟨60, 3, 1000⟩ 500 500
        (HttpOutcome.response respQuota) (some 7) =
      repo_polling_iteration ⟨60, 3, 1000⟩ 500 500
        (HttpOutcome.response respQuota) (some 7) ∧
    (person_polling_iteration ⟨60, 3, 1000⟩
        (HttpOutcome.response respQuota) (some 7)).rlAfter = ⟨60, 3, 1000⟩ ∧
    (person_polling_iteration ⟨60, 3, 1000⟩
        (HttpOutcome.response respQuota) (some 7)).waitedBefore = 0) ∧
    (repo_polling_iteration ⟨60, 3, 1000⟩ 500 500
        (HttpOutcome.response respQuota) (some 7)).waitedBefore = 501 :=
  ⟨rate_limit_shared_discipline ⟨60, 3, 1000⟩ 500 500
      (HttpOutcome.response respQuota) (some 7),
    by rw [repo_iteration_waited, request_waitedBefore]; decide⟩

/-! ## C5 — the 403 rate-limited wait computation -/

/-- C5: a 403 response whose remaining-quota header is `"0"` (and whose
quota headers parse, so that the preceding header update does not raise)
makes `request_github_api` return a rate-limited failure reporting
`max(0, resetAt - now) + 1` seconds, which equals `resetAt - now + 1`
clamped to at least 1, for all integer clocks — including a reset time in
the past. -/
theorem rate_limited_wait_clamped (rl : RateLimit) (now now403 rt : Int)
    (resp : HttpResponse)
    (hstatus : resp.status = 403)
    (hrem : headerGet resp.headers "X-RateLimit-Remaining" = some "0")
    (hupd : (update_rate_limit_from_response rl resp.headers).2 = none)
    (hrt : resetTimeOfHeaders resp.headers = some rt) :
    (request_github_api rl now now403 (HttpOutcome.response resp)).ok = false ∧
    (request_github_api rl now now403 (HttpOutcome.response resp)).retval =
      Sum.inr (rateLimitedMsg (rateLimitWaitSeconds rt now403)) ∧
    (∀ r n : Int, rateLimitWaitSeconds r n = max 1 (r - n + 1)) ∧
    1 ≤ rateLimitWaitSeconds rt now403 := by
  have hident : ∀ r n : Int, rateLimitWaitSeconds r n = max 1 (r - n + 1) := by
    intro r n
    unfold rateLimitWaitSeconds
    rcases le_total (r - n) 0 with h | h
    · rw [max_eq_left h, max_eq_left (by omega)]
      omega
    · rw [max_eq_right h, max_eq_right (by omega)]
  have hge : 1 ≤ rateLimitWaitSeconds rt now403 := by
    have := le_max_left (0 : Int) (rt - now403)
    unfold rateLimitWaitSeconds
    omega
  have hmain : request_github_api rl now now403 (HttpOutcome.response resp) =
      ⟨false, Sum.inr (rateLimitedMsg (rateLimitWaitSeconds rt now403)),
        (update_rate_limit_from_response rl resp.headers).1, preWait rl now⟩ := by
    simp only [request_github_api]
    rcases hu : update_rate_limit_from_response rl resp.headers with ⟨rl2, err⟩
    rw [hu] at hupd
    cases err with
    | some e => exact absurd hupd (by simp)
    | none =>
      have h200 : ¬resp.status = 200 := by rw [hstatus]; omega
      simp only [if_neg h200, if_pos (And.intro hstatus hrem), hrt]
  rw [hmain]
  exact ⟨rfl, rfl, hident, hge⟩

/-- C5 witness: the sample 403 response (reset header 100) with the clock
at 200 — the reset lies in the past, and the reported wait clamps to 1. -/
theorem rate_limited_wait_clamped_witness :
    ((request_github_api ⟨5000, 10, 0⟩ 0 200
        (HttpOutcome.response resp403)).ok = false ∧
    (request_github_api ⟨5000, 10, 0⟩ 0 200
        (HttpOutcome.response resp403)).retval =
      Sum.inr (rateLimitedMsg (rateLimitWaitSeconds 100 200)) ∧
    (∀ r n : Int, rateLimitWaitSeconds r n = max 1 (r - n + 1)) ∧
    1 ≤ rateLimitWaitSeconds 100 200) ∧
    rateLimitWaitSeconds 100 200 = 1 :=
  ⟨rate_limited_wait_clamped ⟨5000, 10, 0⟩ 0 200 100 resp403 rfl rfl rfl rfl,
    rfl⟩

/-! ## C6 — the API client never raises past its boundary -/

/-- C6: for every input — rate-limit state, clock readings and HTTP outcome
(any response status, any body, or any of the transport/timeout/unknown
exceptions) — `request_github_api` returns a tagged result: `(True, body)`
exactly for a 200 response whose body parses, and `(False, message)` in
every other case; no input produces anything else. -/
theorem request_never_raises (rl : RateLimit) (now now403 : Int)
    (outcome : HttpOutcome) :
    ((request_github_api rl now now403 outcome).ok = true ∧
      ∃ resp body, outcome = HttpOutcome.response resp ∧ resp.status = 200 ∧
        resp.jsonBody = some body ∧
        (request_github_api rl now now403 outcome).retval = Sum.inl body) ∨
    ((request_github_api rl now now403 outcome).ok = false ∧
      ∃ msg, (request_github_api rl now now403 outcome).retval =
        Sum.inr msg) := by
  cases outcome with
  | clientError e => exact Or.inr ⟨rfl, networkErrMsg e, rfl⟩
  | timeout => exact Or.inr ⟨rfl, timeoutMsg, rfl⟩
  | otherError e => exact Or.inr ⟨rfl, unknownErrMsg e, rfl⟩
  | response resp =>
    simp only [request_github_api]
    (repeat' split) <;>
      first
        | exact Or.inr ⟨rfl, _, rfl⟩
        | exact Or.inl ⟨rfl, resp, _, rfl, by assumption, by assumption, rfl⟩

/-! ## C9 — the two copies of `request_github_api` -/

/-- C9: the function embedded from src/fixed_request_github_api.py and the
one embedded from src/main.py lines 666–725 (whose source text itself is a
`SyntaxError`: line 707 joins `else:` and `try:` on one line, so importing
main.py fails — the embedding restores the missing line break) agree on
every input. -/
theorem fixed_copy_equals_main_copy (rl : RateLimit) (now now403 : Int)
    (outcome : HttpOutcome) :
    request_github_api_main rl now now403 outcome =
      request_github_api rl now now403 outcome := rfl

/-! ## C7 — how the registry is written to disk -/

/-- C7 counterexample: `save_tracking_tasks` does not use the
write-to-temp-then-rename strategy — on a concrete registry its operation
sequence opens the persist file itself for truncating writing, which the
discipline forbids. -/
theorem save_not_temp_then_rename :
    ¬ writesViaTempThenRename (save_tracking_tasks_ops sampleTasks)
      persist_file := by
  rintro ⟨hopen, tmp, hne, hmem⟩
  exact hopen (FsOp.openWrite persist_file) (List.mem_cons_self _ _) rfl

/-- C7 amended: `save_tracking_tasks` writes the serialised registry
directly into the persist file — a truncating open of the destination
followed by the dump, with no temporary file and no rename anywhere — so
the temp-then-rename crash-safety the spec requires is not provided: a
crash mid-write can corrupt the previously-saved data. -/
theorem save_writes_destination_in_place (ts : TrackingTasks) :
    FsOp.openWrite persist_file ∈ save_tracking_tasks_ops ts ∧
    (∀ src dst, FsOp.renameFile src dst ∉ save_tracking_tasks_ops ts) ∧
    ¬ writesViaTempThenRename (save_tracking_tasks_ops ts) persist_file ∧
    save_tracking_tasks ts = FileState.doc (save_doc ts) := by
  refine ⟨List.mem_cons_self _ _, ?_, ?_, rfl⟩
  · intro src dst hmem
    simp [save_tracking_tasks_ops] at hmem
  · rintro ⟨hopen, tmp, hne, hmem⟩
    exact hopen (FsOp.openWrite persist_file) (List.mem_cons_self _ _) rfl

/-- C7 amended witness: on the sample registry the operation sequence is
literally the truncating open of the destination followed by the dump. -/
theorem save_writes_destination_in_place_witness :
    (FsOp.openWrite persist_file ∈ save_tracking_tasks_ops sampleTasks ∧
    (∀ src dst, FsOp.renameFile src dst ∉ save_tracking_tasks_ops sampleTasks) ∧
    ¬ writesViaTempThenRename (save_tracking_tasks_ops sampleTasks)
      persist_file ∧
    save_tracking_tasks sampleTasks = FileState.doc (save_doc sampleTasks)) ∧
    save_tracking_tasks_ops sampleTasks =
      [FsOp.openWrite persist_file, FsOp.writeDoc (save_doc sampleTasks)] :=
  ⟨save_writes_destination_in_place sampleTasks, rfl⟩

/-! ## C8 — save/load round trip -/

theorem decodeOptInt_optIntToJson :
    ∀ o : Option Int, decodeOptInt (optIntToJson o) = some o
  | none => rfl
  | some _ => rfl

theorem decodeData_dataToJson :
    ∀ d : List (String × String), decodeData (dataToJson d) = some d
  | [] => rfl
  | kv :: rest => by
    have ih := decodeData_dataToJson rest
    simp only [dataToJson, List.map_cons, decodeData, List.foldr_cons] at ih ⊢
    rw [ih]

theorem decodeEntries_map {α β : Type} (f : Json → Option α) (enc : β → Json)
    (g : β → α) (h : ∀ b, f (enc b) = some (g b)) :
    ∀ l : List (String × β),
      decodeEntries f (l.map (fun kv => (kv.1, enc kv.2))) =
        some (l.map (fun kv => (kv.1, g kv.2)))
  | [] => rfl
  | kv :: rest => by
    simp only [List.map_cons, decodeEntries, h kv.2,
      decodeEntries_map f enc g h rest]

theorem decodeTaskRecord_taskRecordToJson (t : TaskInfo) :
    decodeTaskRecord (taskRecordToJson t) = some t.persisted := by
  show (match decodeData (dataToJson t.data),
      decodeOptInt (optIntToJson t.last_event_id) with
    | some d, some l => some (⟨t.id, t.mode, d, l⟩ : PersistedTask)
    | _, _ => none) = some t.persisted
  rw [decodeData_dataToJson, decodeOptInt_optIntToJson]
  rfl

theorem decodeTasksOfSession_sessionToJson (tasks : List (String × TaskInfo)) :
    decodeTasksOfSession (sessionToJson tasks) =
      some (tasks.map (fun p => (p.1, p.2.persisted))) := by
  unfold sessionToJson decodeTasksOfSession
  exact decodeEntries_map decodeTaskRecord taskRecordToJson TaskInfo.persisted
    decodeTaskRecord_taskRecordToJson tasks

/-- C8: for every task set, loading the persist file written by
`save_tracking_tasks` yields back exactly the task set restricted to the
four persisted fields (id, mode, data, last_event_id), destination by
destination and task by task, in order. -/
theorem load_after_save_roundtrip (ts : TrackingTasks) :
    decode_doc (load_tracking_tasks_from_file (save_tracking_tasks ts)) =
      some (ts.map (fun s => (s.1, s.2.map (fun p => (p.1, p.2.persisted))))) := by
  show decode_doc (save_doc ts) = _
  unfold save_doc decode_doc
  exact decodeEntries_map decodeTasksOfSession sessionToJson
    (fun tasks => tasks.map (fun p => (p.1, p.2.persisted)))
    decodeTasksOfSession_sessionToJson ts

/-- C8 witness: the sample registry round-trips to its persisted
restriction, evaluated to the literal record. -/
theorem load_after_save_roundtrip_witness :
    decode_doc (load_tracking_tasks_from_file (save_tracking_tasks sampleTasks)) =
      some (sampleTasks.map (fun s =>
        (s.1, s.2.map (fun p => (p.1, p.2.persisted))))) ∧
    sampleTasks.map (fun s => (s.1, s.2.map (fun p => (p.1, p.2.persisted)))) =
      [("chan:42", [("ab12cd34",
        { id := "ab12cd34", mode := "repo"
          data := [("owner", "torvalds"), ("repo", "linux")]
          last_event_id := some 100 })])] :=
  ⟨load_after_save_roundtrip sampleTasks, rfl⟩

end GithubTracker
